import Mathlib

/-!
Verification model of thingsboard_gateway/gateway/tb_gateway_service.py.

Modelling conventions:
* Python dicts are insertion-ordered association lists with unique keys.
* Python None is the explicit JVal.null value; raised exceptions are Except
  errors or explicit outcome flags.
* Connector objects are identified by their name (what get_name returns).
* Calls on the cloud transport client and writes of connected_devices.json
  are recorded as Effect values instead of performing input and output.
-/

/-- Lookup in an insertion-ordered association list (a Python dict read). -/
def alookup {α : Type} : List (String × α) → String → Option α
  | [], _ => none
  | (k1, v1) :: t, k => if k1 = k then some v1 else alookup t k

/-- Python dict assignment d[k] = v: replace in place if the key exists,
otherwise append at the end. -/
def aset {α : Type} : List (String × α) → String → α → List (String × α)
  | [], k, v => [(k, v)]
  | (k1, v1) :: t, k, v => if k1 = k then (k1, v) :: t else (k1, v1) :: aset t k v

/-- Python dict deletion del d[k]; dict keys are unique, so removing every
pair with the key is faithful. -/
def aerase {α : Type} (l : List (String × α)) (k : String) : List (String × α) :=
  l.filter (fun kv => decide (kv.1 ≠ k))

/-- Lexicographic comparison of char lists by code point, as Python sorts
strings. -/
def charListLe : List Char → List Char → Bool
  | [], _ => true
  | _ :: _, [] => false
  | a :: as, b :: bs => if a = b then charListLe as bs else decide (a.toNat < b.toNat)

/-- String order used to model dumps with sort_keys=True. -/
def strLe (a b : String) : Bool :=
  charListLe a.toList b.toList

/-- Insertion into a key-sorted list of pairs. -/
def insertSorted (p : String × String) : List (String × String) → List (String × String)
  | [] => [p]
  | q :: t => if strLe p.1 q.1 then p :: q :: t else q :: insertSorted p t

/-- Sort an association list by key (dumps with sort_keys=True). -/
def sortByKey (l : List (String × String)) : List (String × String) :=
  l.foldr insertSorted []

/-- JSON-like values: the shape of converted connector data. -/
inductive JVal where
  | null
  | b (v : Bool)
  | i (n : Int)
  | s (v : String)
  | arr (items : List JVal)
  | obj (fields : List (String × JVal))

/-- Python key-membership test k in d, false for non-dict values. -/
def jHasKey (v : JVal) (k : String) : Bool :=
  match v with
  | JVal.obj kvs => (alookup kvs k).isSome
  | _ => false

/-- Python subscript d[k]: KeyError when the key is missing, TypeError on a
non-dict value. -/
def jIndex : JVal → String → Except String JVal
  | JVal.obj kvs, k =>
      match alookup kvs k with
      | some v => Except.ok v
      | none => Except.error "KeyError"
  | _, _ => Except.error "TypeError"

/-- Python double-splat merge of two dicts: keys of the first in their order
with values overridden by the second, then the new keys of the second. -/
def dictMerge (a b : List (String × JVal)) : List (String × JVal) :=
  a.map (fun kv => (kv.1, (alookup b kv.1).getD kv.2)) ++
    b.filter (fun kv => (alookup a kv.1).isNone)

/- ------------------------------------------------------------------
Device registry: add_device (line 641), update_device (line 649),
del_device (line 654), and the persistence writer (line 690).
------------------------------------------------------------------ -/

/-- A record held in __connected_devices and _saved_devices: the content dict
with the connector object (modelled by its name, possibly None) and the
device_type entry added by add_device. -/
structure DeviceRec where
  connector : Option String
  device_type : String
deriving DecidableEq

/-- The two in-memory registry dicts of the gateway service. -/
structure RegState where
  connectedDevices : List (String × DeviceRec)
  savedDevices : List (String × DeviceRec)
deriving DecidableEq

/-- Observable actions of the registry code: a full rewrite of
connected_devices.json and the two cloud announcements. -/
inductive Effect where
  | persistFile (content : List (String × String))
  | gwConnectDevice (name deviceType : String)
  | gwDisconnectDevice (name : String)
deriving DecidableEq

/-- Content written by __save_persistent_devices (line 690): every connected
device whose connector is not None mapped to the connector name, dumped with
sorted keys (indent is formatting only and is not modelled). -/
def persistContent (connected : List (String × DeviceRec)) : List (String × String) :=
  sortByKey (connected.foldr
    (fun d acc =>
      match d.2.connector with
      | some c => (d.1, c) :: acc
      | none => acc)
    [])

/-- add_device (line 641): a no-op when the name is already saved; otherwise
record the device in both dicts, rewrite the persistence file, then announce
gw_connect_device. -/
def add_device (st : RegState) (name : String) (conn : Option String)
    (device_type : Option String) : RegState × List Effect :=
  match alookup st.savedDevices name with
  | some _ => (st, [])
  | none =>
      let dt := device_type.getD "default"
      let devRec : DeviceRec := { connector := conn, device_type := dt }
      let connected2 := aset st.connectedDevices name devRec
      let saved2 := aset st.savedDevices name devRec
      ({ connectedDevices := connected2, savedDevices := saved2 },
       [Effect.persistFile (persistContent connected2), Effect.gwConnectDevice name dt])

/-- update_device (line 649) specialised to event = connector, the only event
the claims use. KeyError (modelled as none) when the device is unknown; when
the connector differs, __save_persistent_devices runs BEFORE the in-memory
assignment, exactly as in the source. -/
def update_device_connector (st : RegState) (name : String) (c : Option String) :
    Option (RegState × List Effect) :=
  match alookup st.connectedDevices name with
  | none => none
  | some r =>
      let effs :=
        if r.connector ≠ c then [Effect.persistFile (persistContent st.connectedDevices)]
        else []
      some ({ st with connectedDevices := aset st.connectedDevices name { r with connector := c } },
            effs)

/-- del_device (line 654). The two del statements run in order, so a missing
name in __connected_devices raises before any mutation, while a name missing
only from _saved_devices raises after the first dict was already mutated.
The result is the final state, the effects issued, and whether a KeyError
was raised. -/
def del_device (st : RegState) (name : String) : RegState × List Effect × Bool :=
  match alookup st.connectedDevices name with
  | none => (st, [], true)
  | some _ =>
      let st1 : RegState := { st with connectedDevices := aerase st.connectedDevices name }
      match alookup st.savedDevices name with
      | none => (st1, [], true)
      | some _ =>
          let st2 : RegState := { st1 with savedDevices := aerase st.savedDevices name }
          (st2,
           [Effect.gwDisconnectDevice name,
            Effect.persistFile (persistContent st2.connectedDevices)],
           false)

/-- One iteration of the reconnect loop body (line 158): add_device with the
saved connector and saved device_type. -/
def reconnectStep (acc : RegState × List Effect) (dev : String × DeviceRec) :
    RegState × List Effect :=
  let r := add_device acc.1 dev.1 dev.2.connector (some dev.2.device_type)
  (r.1, acc.2 ++ r.2)

/-- The reconnect re-announce loop (lines 157 to 160): for every device of
_saved_devices, call add_device with its saved connector and type. -/
def reconnectReannounce (st : RegState) : RegState × List Effect :=
  st.savedDevices.foldl reconnectStep (st, [])

/- ------------------------------------------------------------------
Ingress consumer __send_to_storage (lines 453 to 492) and the telemetry
normalization it performs.
------------------------------------------------------------------ -/

/-- Modelled from the spec: TBUtility.validate_converted_data is not under
src; the spec says validation requires presence of deviceName and at least
one of the telemetry and attributes sections. -/
def validate_converted_data (data : JVal) : Bool :=
  jHasKey data "deviceName" && (jHasKey data "telemetry" || jHasKey data "attributes")

/-- Terminal step of the normalization (lines 480 to 483): a non-empty
telemetry_with_ts list is emitted as is, otherwise one bundle with the
ingestion timestamp and the merged bare values. -/
def finishNorm (now : Int) (bare : List (String × JVal)) (withTs : List JVal) :
    Except String JVal :=
  match withTs with
  | [] => Except.ok (JVal.obj [("ts", JVal.i now), ("values", JVal.obj bare)])
  | _ :: _ => Except.ok (JVal.arr withTs)

/-- The for-loop of lines 475 to 479 over the telemetry items. An item whose
get of ts is None (missing key or null) is double-splat merged into the bare
accumulator; otherwise a record with its ts and a copy of its values map is
appended. Non-dict items raise (str has no get), a ts item without a values
key raises KeyError, and non-dict values raise on the double splat. -/
def normLoop (now : Int) : List JVal → List (String × JVal) → List JVal →
    Except String JVal
  | [], bare, withTs => finishNorm now bare withTs
  | item :: rest, bare, withTs =>
      match item with
      | JVal.obj kvs =>
          match alookup kvs "ts" with
          | none => normLoop now rest (dictMerge bare kvs) withTs
          | some JVal.null => normLoop now rest (dictMerge bare kvs) withTs
          | some t =>
              match alookup kvs "values" with
              | none => Except.error "KeyError"
              | some vals =>
                  match vals with
                  | JVal.obj vm =>
                      normLoop now rest bare
                        (withTs ++ [JVal.obj [("ts", t), ("values", JVal.obj vm)]])
                  | _ => Except.error "TypeError"
      | _ => Except.error "AttributeError"

/-- Iteration of data subscript telemetry at line 475: Python lists iterate
elements, dicts iterate their keys, strings iterate their characters, and
other scalars raise TypeError. -/
def normalizeTelemetry (now : Int) : JVal → Except String JVal
  | JVal.arr items => normLoop now items [] []
  | JVal.obj kvs => normLoop now (kvs.map (fun kv => JVal.s kv.1)) [] []
  | JVal.s str => normLoop now (str.toList.map (fun c => JVal.s (String.singleton c))) [] []
  | _ => Except.error "TypeError"

/-- Does a telemetry entry carry an explicit (non-null) ts, the way the
source loop distinguishes entries. -/
def entryHasTs (it : JVal) : Bool :=
  match it with
  | JVal.obj kvs =>
      match alookup kvs "ts" with
      | none => false
      | some JVal.null => false
      | some _ => true
  | _ => false

/-- Fields of an entry when it is a map, else nothing. -/
def entryFields (it : JVal) : List (String × JVal) :=
  match it with
  | JVal.obj kvs => kvs
  | _ => []

/-- The ts-and-values record the claim says an explicit-ts entry becomes. -/
def specTsEntry (it : JVal) : JVal :=
  JVal.obj [("ts", (alookup (entryFields it) "ts").getD JVal.null),
            ("values", (alookup (entryFields it) "values").getD JVal.null)]

/-- Written from the words of claim C7: partition the entries into those
carrying an explicit ts and bare maps; if at least one explicit-ts entry
exists the stored telemetry is the list of ts-values records, otherwise one
object with the ingestion timestamp and the left-to-right merge of all bare
maps, the empty merge giving empty values. -/
def telemetrySpecNormalize (now : Int) (items : List JVal) : JVal :=
  match (items.filter entryHasTs).map specTsEntry with
  | [] =>
      JVal.obj [("ts", JVal.i now),
                ("values", JVal.obj ((items.filter (fun it => !(entryHasTs it))).foldl
                    (fun acc it => dictMerge acc (entryFields it)) []))]
  | l => JVal.arr l

/-- Telemetry entries of the shapes the claim data model allows as list
elements: a map with an integer ts and a values map, or a bare map without
a ts key. -/
def wfEntry (it : JVal) : Bool :=
  match it with
  | JVal.obj kvs =>
      match alookup kvs "ts" with
      | none => true
      | some (JVal.i _) =>
          match alookup kvs "values" with
          | some (JVal.obj _) => true
          | _ => false
      | some _ => false
  | _ => false

/-- What one iteration of the ingress consumer did with its item. -/
inductive ItemOutcome where
  | stored (v : JVal)
  | droppedException (msg : String)
  | invalidReturn

/-- Ambient facts the consumer reads: the gateway random name, cloud
connectivity, and the available_connectors dict (name to connector object,
the object modelled by its name). -/
structure ConsumerEnv where
  gatewayName : String
  connected : Bool
  availableConnectors : List (String × String)

/-- Mutable state the consumer touches: the registry, the per-connector
message counters, the sequence of storage put calls, and registry effects. -/
structure ConsState where
  reg : RegState
  counters : List (String × Nat)
  putCalls : List JVal
  regEffects : List Effect

/-- Lines 462 to 465: when the device is unknown and the cloud is connected,
add_device with the originating connector object and the deviceType entry of
the data. The connector subscript or a missing deviceType key raises before
add_device runs. The model restricts deviceName and deviceType to strings
(with null mapping to the default), the only shapes the data model allows. -/
def registerIfNew (env : ConsumerEnv) (st : ConsState) (connectorName dn : String)
    (data : JVal) : Except String ConsState :=
  if (alookup st.reg.connectedDevices dn).isNone && env.connected then
    match alookup env.availableConnectors connectorName with
    | none => Except.error "KeyError"
    | some connObj =>
        match jIndex data "deviceType" with
        | Except.error e => Except.error e
        | Except.ok JVal.null =>
            let p := add_device st.reg dn (some connObj) none
            Except.ok { st with reg := p.1, regEffects := st.regEffects ++ p.2 }
        | Except.ok (JVal.s ds) =>
            let p := add_device st.reg dn (some connObj) (some ds)
            Except.ok { st with reg := p.1, regEffects := st.regEffects ++ p.2 }
        | Except.ok _ => Except.error "TypeError"
  else Except.ok st

/-- Lines 466 to 469: a missing or zero counter is set to zero (not 0 and
not None are both true in Python), a positive one is incremented. -/
def bumpCounter (counters : List (String × Nat)) (connectorName : String) :
    List (String × Nat) :=
  match alookup counters connectorName with
  | none => aset counters connectorName 0
  | some 0 => aset counters connectorName 0
  | some (n + 1) => aset counters connectorName (n + 2)

/-- Lines 473 to 490: read data subscript telemetry (KeyError when the key is
absent), normalize it, write it back, serialize and put. Any raise is caught
by the except at line 491 and the item is dropped. -/
def processTelemetryAndPut (st : ConsState) (data : JVal) (now : Int) :
    ConsState × ItemOutcome :=
  match jIndex data "telemetry" with
  | Except.error e => (st, ItemOutcome.droppedException e)
  | Except.ok telem =>
      match normalizeTelemetry now telem with
      | Except.error e => (st, ItemOutcome.droppedException e)
      | Except.ok t2 =>
          match data with
          | JVal.obj kvs =>
              let data2 := JVal.obj (aset kvs "telemetry" t2)
              ({ st with putCalls := st.putCalls ++ [data2] }, ItemOutcome.stored data2)
          | _ => (st, ItemOutcome.droppedException "TypeError")

/-- One iteration of __send_to_storage (lines 456 to 490) on a dequeued
(connector name, data) pair. A validation failure executes return None,
reported as the invalidReturn outcome. -/
def processItem (env : ConsumerEnv) (st : ConsState) (connectorName : String)
    (data : JVal) (now : Int) : ConsState × ItemOutcome :=
  if connectorName = env.gatewayName then
    match data with
    | JVal.obj kvs =>
        processTelemetryAndPut st
          (JVal.obj (aset kvs "deviceName" (JVal.s "currentThingsBoardGateway"))) now
    | _ => (st, ItemOutcome.droppedException "TypeError")
  else
    if validate_converted_data data = false then (st, ItemOutcome.invalidReturn)
    else
      match jIndex data "deviceName" with
      | Except.error e => (st, ItemOutcome.droppedException e)
      | Except.ok devName =>
          match devName with
          | JVal.s dn =>
              match registerIfNew env st connectorName dn data with
              | Except.error e => (st, ItemOutcome.droppedException e)
              | Except.ok st1 =>
                  let st2 := { st1 with counters := bumpCounter st1.counters connectorName }
                  processTelemetryAndPut st2 data now
          | _ => (st, ItemOutcome.droppedException "TypeError")

/-- The consumer loop: return None on a validation failure exits the thread
function, so the rest of the queue is never processed; every other outcome,
including a caught exception, continues with the next item. -/
def runConsumer (env : ConsumerEnv) : ConsState → List (String × JVal × Int) → ConsState
  | st, [] => st
  | st, (cn, d, now) :: rest =>
      match processItem env st cn d now with
      | (st2, ItemOutcome.invalidReturn) => st2
      | (st2, _) => runConsumer env st2 rest

/- ------------------------------------------------------------------
Uplink drain of the publishedEvents queue (lines 320 to 347).
------------------------------------------------------------------ -/

/-- The environment one drained token is processed under: the guard samples
at the top of the iteration, the samples of the inner connectivity check,
whether the get call raises, and whether the token reports TB_ERR_SUCCESS. -/
structure TokenStep where
  cfgInProc1 : Bool
  connected1 : Bool
  rpcReplySent1 : Bool
  connected2 : Bool
  cfgInProc2 : Bool
  getRaises : Bool
  tokenOk : Bool
deriving DecidableEq

/-- The while loop of lines 323 to 343 over the queued completion tokens,
threading the success variable. The guard at line 324 sets success to False
and breaks; the inner else at line 339 breaks keeping the current success;
with quality of service 1 the token result is assigned (not conjoined) to
success, with any other quality of service True is assigned; a raise from
get assigns False and continues. The commit at line 345 runs iff the final
success is true. -/
def drainTokens (qos : Nat) : List TokenStep → Bool → Bool
  | [], success => success
  | e :: rest, success =>
      if e.cfgInProc1 || !e.connected1 || e.rpcReplySent1 then false
      else
        if e.connected2 && !e.cfgInProc2 then
          if qos = 1 then
            if e.getRaises then drainTokens qos rest false
            else drainTokens qos rest e.tokenOk
          else drainTokens qos rest true
        else success

/-- Whether a drained token counts as success under the given quality of
service, as claim C1 words it. -/
def tokenSuccess (qos : Nat) (e : TokenStep) : Bool :=
  if qos = 1 then e.tokenOk else true

/-- A step whose guard samples all pass and whose get does not raise. -/
def benignStep (e : TokenStep) : Bool :=
  !e.cfgInProc1 && e.connected1 && !e.rpcReplySent1 && e.connected2 &&
    !e.cfgInProc2 && !e.getRaises

/-- Last element of a token list, if any. -/
def lastTok : List TokenStep → Option TokenStep
  | [] => none
  | e :: rest =>
      match lastTok rest with
      | none => some e
      | some x => some x

/-- Claim C1 formalised as stated: the pack is committed iff every drained
token reported success. -/
def c1ClaimHolds (qos : Nat) (steps : List TokenStep) : Prop :=
  (drainTokens qos steps true = true) ↔ ∀ e ∈ steps, tokenSuccess qos e = true

/-- A benign QoS-1 token whose get reports failure. -/
def stepBenignFail : TokenStep :=
  { cfgInProc1 := false, connected1 := true, rpcReplySent1 := false,
    connected2 := true, cfgInProc2 := false, getRaises := false, tokenOk := false }

/-- A benign QoS-1 token whose get reports success. -/
def stepBenignOk : TokenStep :=
  { stepBenignFail with tokenOk := true }

/- ------------------------------------------------------------------
Pack assembly size accounting: check_size (line 253) inside the fold of
__read_data_from_storage (lines 283 to 317). Sizes are the approximate
byte counts the source adds per appended entry; the accumulator content is
abstracted to the list of entry sizes.
------------------------------------------------------------------ -/

/-- Running state of the fold: the size counter, the sizes of the entries
currently in the accumulator, and the flush history. Each flush records the
accumulator content (by entry sizes) and the entry whose addition triggered
it, none for the final send after the fold. -/
structure PackAsmState where
  size : Nat
  pend : List Nat
  flushed : List (List Nat × Option Nat)
deriving DecidableEq

/-- One entry append: the size counter grows first, check_size flushes the
CURRENT accumulator and zeroes the counter when the threshold is reached,
and only then is the entry appended (lines 289 to 292). -/
def packStep (maxSize : Nat) (st : PackAsmState) (w : Nat) : PackAsmState :=
  let sz := st.size + w
  if maxSize ≤ sz then
    { size := 0, pend := [w], flushed := st.flushed ++ [(st.pend, some w)] }
  else
    { size := sz, pend := st.pend ++ [w], flushed := st.flushed }

/-- Sum of entry sizes. -/
def sumW : List Nat → Nat
  | [] => 0
  | w :: t => w + sumW t

/-- Size of the first entry of an accumulator, zero when empty. -/
def headW : List Nat → Nat
  | [] => 0
  | w :: _ => w

/-- Fold a pack of entry sizes starting from counter s0 and an empty
accumulator, then perform the final send of line 317: all publishes of the
iteration, each with its triggering entry when one exists. -/
def assemblePack (maxSize s0 : Nat) (ws : List Nat) : List (List Nat × Option Nat) :=
  let fin := ws.foldl (packStep maxSize) { size := s0, pend := [], flushed := [] }
  fin.flushed ++ [(fin.pend, none)]

/-- Claim C6 formalised as stated: no publish exceeds the threshold by more
than the size of the entry that triggered its flush. -/
def packClaimBound (maxSize s0 : Nat) (ws : List Nat) : Prop :=
  ∀ pr ∈ assemblePack maxSize s0 ws, sumW pr.1 ≤ maxSize + pr.2.getD 0

/-- The bound that actually holds: every publish stays under the threshold
plus the size of its own FIRST entry, the entry appended right after the
previous flush, whose size the zeroed counter never re-counts. -/
def packAmendedBound (maxSize s0 : Nat) (ws : List Nat) : Prop :=
  ∀ pr ∈ assemblePack maxSize s0 ws, sumW pr.1 + 1 ≤ maxSize + headW pr.1

/- ------------------------------------------------------------------
RPC dispatch for gateway-targeted requests, _rpc_request_handler
(lines 517 to 555).
------------------------------------------------------------------ -/

/-- Configuration the handler consults: connector types with a truthy entry
in connectors_configs, the available connectors as pairs of connector type
and the result their server_side_rpc_handler returns for this request, and
the remote shell commands, none when the feature is disabled and
__remote_shell is None. -/
structure RpcEnv where
  connectorsConfigs : List String
  availableConnectors : List (String × Option JVal)
  remoteShellCommands : Option (List String)

/-- The reply the handler transmits for a device-less request: the
success-flag form for a None result, a JSON content reply, the formatted
code-500 string built in the except branch at line 552, or entry into
__rpc_gateway_processing (whose internal methods no claim concerns). -/
inductive RpcReply where
  | successFlag (ok : Bool)
  | jsonContent (v : JVal)
  | exceptionText (code : Nat)
  | gatewayProcessing (moduleName : String)

/-- Lines 543 to 550: a None result sends a failure flag; a result carrying
a qos key is sent with that key stripped; any other result is dumped as is. -/
def replyForResult (result : Option JVal) : RpcReply :=
  match result with
  | none => RpcReply.successFlag false
  | some v =>
      match v with
      | JVal.obj kvs =>
          if (alookup kvs "qos").isSome then RpcReply.jsonContent (JVal.obj (aerase kvs "qos"))
          else RpcReply.jsonContent v
      | _ => RpcReply.jsonContent v

/-- The module prefix of the method, content method split on the underscore
taken at index zero (line 524). -/
def methodModule (m : String) : String :=
  String.mk (m.toList.takeWhile (fun c => !(c = '_')))

/-- The 404 payload built at line 541. -/
def notFoundPayload (moduleName : String) : JVal :=
  JVal.obj [("error", JVal.s (moduleName ++ " - connector not found in available connectors.")),
            ("code", JVal.i 404)]

/-- The routing of lines 524 to 552 for a request without a device field.
When the module matches a truthy connectors_configs entry, every available
connector of that type is invoked and the last result wins. Otherwise the
condition at line 537 short-circuits on module equal to gateway, and then
dereferences __remote_shell.shell_commands: with the remote shell disabled
that object is None, the dereference raises AttributeError, and the except
at line 551 sends the code-500 string instead of the 404 payload. -/
def rpc_request_handler_no_device (env : RpcEnv) (method : String) : RpcReply :=
  let moduleName := methodModule method
  if env.connectorsConfigs.contains moduleName then
    replyForResult (env.availableConnectors.foldl
      (fun acc c => if c.1 = moduleName then c.2 else acc) none)
  else if moduleName = "gateway" then
    RpcReply.gatewayProcessing moduleName
  else
    match env.remoteShellCommands with
    | some cmds =>
        if cmds.contains moduleName then RpcReply.gatewayProcessing moduleName
        else RpcReply.jsonContent (notFoundPayload moduleName)
    | none => RpcReply.exceptionText 500

/- ------------------------------------------------------------------
Concrete inputs used by the evaluation theorems and witnesses.
------------------------------------------------------------------ -/

/-- A registry holding one device d1 owned by connector c1, present in both
dicts. -/
def regSampleState : RegState :=
  { connectedDevices := [("d1", { connector := some "c1", device_type := "default" })],
    savedDevices := [("d1", { connector := some "c1", device_type := "default" })] }

/-- A registry holding one device d1 owned by connector A. -/
def c8State : RegState :=
  { connectedDevices := [("d1", { connector := some "A", device_type := "default" })],
    savedDevices := [("d1", { connector := some "A", device_type := "default" })] }

/-- Consumer environment with the cloud connected and connector c1 loaded. -/
def env2 : ConsumerEnv :=
  { gatewayName := "gw", connected := true, availableConnectors := [("c1", "c1")] }

/-- Consumer state with device d1 already registered. -/
def stC2 : ConsState :=
  { reg := regSampleState, counters := [], putCalls := [], regEffects := [] }

/-- A validated ingress item carrying only attributes and no telemetry key. -/
def c2Data : JVal :=
  JVal.obj [("deviceName", JVal.s "d1"), ("attributes", JVal.obj [("a", JVal.i 1)])]

/-- Consumer environment for the queue-continuation input. -/
def env3 : ConsumerEnv :=
  { gatewayName := "gw", connected := false, availableConnectors := [("c1", "c1")] }

/-- Empty consumer state. -/
def st0c3 : ConsState :=
  { reg := { connectedDevices := [], savedDevices := [] },
    counters := [], putCalls := [], regEffects := [] }

/-- An item that fails validation: no deviceName. -/
def invalid3 : JVal :=
  JVal.obj [("telemetry", JVal.arr [])]

/-- A valid item with one bare telemetry map. -/
def valid3 : JVal :=
  JVal.obj [("deviceName", JVal.s "d1"),
            ("telemetry", JVal.arr [JVal.obj [("v", JVal.i 1)]])]

/-- RPC environment with no loaded connectors and the remote shell disabled. -/
def rpcEnvNoShell : RpcEnv :=
  { connectorsConfigs := [], availableConnectors := [], remoteShellCommands := none }

/-- RPC environment with no loaded connectors and the remote shell enabled. -/
def rpcEnvShell : RpcEnv :=
  { connectorsConfigs := [], availableConnectors := [],
    remoteShellCommands := some ["whoami", "ls"] }

/-- Telemetry entries for the normalization witness: one bare map and one
explicit-ts entry. -/
def items7 : List JVal :=
  [JVal.obj [("a", JVal.i 1)],
   JVal.obj [("ts", JVal.i 5), ("values", JVal.obj [("b", JVal.i 2)])]]

/- ------------------------------------------------------------------
Helper lemmas.
------------------------------------------------------------------ -/

/-- A key occurring in an association list is found by alookup. -/
theorem alookup_isSome_of_mem {α : Type} {l : List (String × α)} {p : String × α}
    (h : p ∈ l) : (alookup l p.1).isSome = true := by
  induction l with
  | nil => cases h
  | cons q t ih =>
      cases h with
      | head => simp [alookup]
      | tail _ ht =>
          by_cases hq : q.1 = p.1
          · simp [alookup, hq]
          · simpa [alookup, hq] using ih ht

/-- After erasing a key, looking it up yields nothing. -/
theorem alookup_aerase_self {α : Type} (l : List (String × α)) (k : String) :
    alookup (aerase l k) k = none := by
  induction l with
  | nil => rfl
  | cons q t ih =>
      by_cases hq : q.1 = k
      · simpa [aerase, hq] using ih
      · simpa [aerase, alookup, hq] using ih

/-- add_device is a complete no-op for a name already saved. -/
theorem add_device_saved_noop (st : RegState) (name : String) (conn dt : Option String)
    (h : (alookup st.savedDevices name).isSome = true) :
    add_device st name conn dt = (st, []) := by
  obtain ⟨v, hv⟩ := Option.isSome_iff_exists.mp h
  simp [add_device, hv]

/-- Folding reconnectStep over devices that are all already saved changes
nothing and issues no effect. -/
theorem reconnect_fold_noop (devs : List (String × DeviceRec)) :
    ∀ (st : RegState) (effs : List Effect),
      (∀ d ∈ devs, (alookup st.savedDevices d.1).isSome = true) →
      devs.foldl reconnectStep (st, effs) = (st, effs) := by
  induction devs with
  | nil => intro st effs _; rfl
  | cons d t ih =>
      intro st effs h
      have hd := h d (List.mem_cons_self d t)
      have hstep : reconnectStep (st, effs) d = (st, effs) := by
        unfold reconnectStep
        rw [add_device_saved_noop st d.1 d.2.connector (some d.2.device_type) hd]
        simp
      rw [List.foldl_cons, hstep]
      exact ih st effs (fun x hx => h x (List.mem_cons_of_mem d hx))

/- ------------------------------------------------------------------
Claim theorems.
------------------------------------------------------------------ -/

/-- Claim C2 (code bug): the item c2Data passes validation and carries only
attributes, yet the consumer raises KeyError on the unconditional telemetry
subscript and the item is dropped without any storage put. -/
theorem C2_code_bug_eval :
    validate_converted_data c2Data = true ∧
    (processItem env2 stC2 "c1" c2Data 5).2 = ItemOutcome.droppedException "KeyError" ∧
    (processItem env2 stC2 "c1" c2Data 5).1.putCalls = [] :=
  ⟨rfl, rfl, rfl⟩

/-- Claim C3 (code bug): after the invalid item, return None terminates the
consumer, so the later valid item is never stored and the whole state is
untouched, although the same valid item alone is stored. -/
theorem C3_code_bug_eval :
    validate_converted_data invalid3 = false ∧
    runConsumer env3 st0c3 [("c1", invalid3, 7), ("c1", valid3, 7)] = st0c3 ∧
    (runConsumer env3 st0c3 [("c1", valid3, 7)]).putCalls.length = 1 :=
  ⟨rfl, rfl, rfl⟩

/-- Claim C4 (code bug): the reconnect loop calls add_device on names that
are by construction already in _saved_devices, so for every registry state
it changes nothing and issues no gw_connect_device announcement at all. -/
theorem C4_code_bug_eval (st : RegState) : reconnectReannounce st = (st, []) := by
  unfold reconnectReannounce
  exact reconnect_fold_noop st.savedDevices st []
    (fun d hd => alookup_isSome_of_mem hd)

/-- Claim C5 (code bug): a gateway-targeted RPC whose module matches no
connector type, not gateway and no shell command gets the 404 payload only
while the remote shell is enabled; with the shell disabled the None
dereference raises and a code-500 reply is sent instead. -/
theorem C5_code_bug_eval :
    rpc_request_handler_no_device rpcEnvNoShell "serial_getStatus" =
      RpcReply.exceptionText 500 ∧
    rpc_request_handler_no_device rpcEnvShell "serial_getStatus" =
      RpcReply.jsonContent (notFoundPayload "serial") :=
  ⟨rfl, rfl⟩

/-- Claim C8 (code bug): update_device on d1 changing the connector from A
to B leaves the in-memory map at B but the file write it emitted was
computed BEFORE the mutation and still maps d1 to A. -/
theorem C8_code_bug_eval :
    (update_device_connector c8State "d1" (some "B")).map
        (fun r => (persistContent r.1.connectedDevices, r.2)) =
      some ([("d1", "B")], [Effect.persistFile [("d1", "A")]]) :=
  rfl

/-- Claim C9: add_device for a name already present in _saved_devices is a
complete no-op: both registry dicts are unchanged, no file write happens and
no gw_connect_device announcement is issued. -/
theorem C9_add_device_noop (st : RegState) (name : String) (conn dt : Option String)
    (h : (alookup st.savedDevices name).isSome = true) :
    add_device st name conn dt = (st, []) :=
  add_device_saved_noop st name conn dt h

/-- Witness for C9 at a concrete saved device. -/
theorem C9_add_device_noop_witness :
    (alookup regSampleState.savedDevices "d1").isSome = true ∧
    add_device regSampleState "d1" (some "c9") (some "t") = (regSampleState, []) :=
  ⟨by decide, C9_add_device_noop regSampleState "d1" (some "c9") (some "t") (by decide)⟩

/-- Claim C10: del_device on a name absent from __connected_devices raises
before any effect; any issued effect implies the name was in both dicts; and
when the name is in both dicts the call removes it from both, announces
gw_disconnect_device and rewrites the persistence file, in that order. -/
theorem C10_del_device (st : RegState) (name : String) :
    (alookup st.connectedDevices name = none → del_device st name = (st, [], true)) ∧
    ((del_device st name).2.1 ≠ [] →
      (alookup st.connectedDevices name).isSome = true ∧
      (alookup st.savedDevices name).isSome = true) ∧
    ((alookup st.connectedDevices name).isSome = true →
      (alookup st.savedDevices name).isSome = true →
      (del_device st name).2.2 = false ∧
      (del_device st name).2.1 =
        [Effect.gwDisconnectDevice name,
         Effect.persistFile (persistContent (del_device st name).1.connectedDevices)] ∧
      alookup (del_device st name).1.connectedDevices name = none ∧
      alookup (del_device st name).1.savedDevices name = none) := by
  refine ⟨?_, ?_, ?_⟩
  · intro h1
    simp [del_device, h1]
  · intro hne
    cases h1 : alookup st.connectedDevices name with
    | none => exact absurd (by simp [del_device, h1]) hne
    | some r1 =>
        cases h2 : alookup st.savedDevices name with
        | none => exact absurd (by simp [del_device, h1, h2]) hne
        | some r2 => simp [h1, h2]
  · intro h1s h2s
    obtain ⟨r1, h1⟩ := Option.isSome_iff_exists.mp h1s
    obtain ⟨r2, h2⟩ := Option.isSome_iff_exists.mp h2s
    simp [del_device, h1, h2, alookup_aerase_self]

/-- Witness for C10 at a concrete registry with d1 in both dicts. -/
theorem C10_del_device_witness :
    (alookup regSampleState.connectedDevices "d1").isSome = true ∧
    (alookup regSampleState.savedDevices "d1").isSome = true ∧
    ((del_device regSampleState "d1").2.2 = false ∧
      (del_device regSampleState "d1").2.1 =
        [Effect.gwDisconnectDevice "d1",
         Effect.persistFile (persistContent (del_device regSampleState "d1").1.connectedDevices)] ∧
      alookup (del_device regSampleState "d1").1.connectedDevices "d1" = none ∧
      alookup (del_device regSampleState "d1").1.savedDevices "d1" = none) :=
  ⟨by decide, by decide, (C10_del_device regSampleState "d1").2.2 (by decide) (by decide)⟩

/-- For a nonempty list lastTok always finds an element. -/
theorem lastTok_cons_isSome (e : TokenStep) (rest : List TokenStep) :
    (lastTok (e :: rest)).isSome = true := by
  induction rest generalizing e with
  | nil => rfl
  | cons x t ih =>
      have := ih x
      unfold lastTok
      cases h : lastTok (x :: t) with
      | none => rw [h] at this; cases this
      | some y => simp

/-- Under benign guard samples the drain loop returns the assigned success
of the LAST drained token, whatever was assigned before. -/
theorem drainTokens_benign (qos : Nat) (steps : List TokenStep) :
    ∀ s : Bool, (∀ e ∈ steps, benignStep e = true) →
      drainTokens qos steps s = ((lastTok steps).map (tokenSuccess qos)).getD s := by
  induction steps with
  | nil => intro s _; rfl
  | cons e rest ih =>
      intro s h
      have he : benignStep e = true := h e (List.mem_cons_self e rest)
      have hrest : ∀ x ∈ rest, benignStep x = true :=
        fun x hx => h x (List.mem_cons_of_mem e hx)
      simp only [benignStep, Bool.and_eq_true, Bool.not_eq_true'] at he
      obtain ⟨⟨⟨⟨⟨h1, h2⟩, h3⟩, h4⟩, h5⟩, h6⟩ := he
      have hstep : drainTokens qos (e :: rest) s =
          drainTokens qos rest (tokenSuccess qos e) := by
        by_cases hq : qos = 1
        · simp [drainTokens, h1, h2, h3, h4, h5, h6, tokenSuccess, hq]
        · simp [drainTokens, h1, h2, h3, h4, h5, h6, tokenSuccess, hq]
      rw [hstep, ih (tokenSuccess qos e) hrest]
      cases hl : lastTok rest with
      | none =>
          cases rest with
          | nil => simp [lastTok]
          | cons x t => have := lastTok_cons_isSome x t; rw [hl] at this; cases this
      | some y => simp [lastTok, hl]

/-- Claim C1 counterexample: with QoS 1 and two benign tokens, the first
failing and the second succeeding, the drain ends with success and the pack
IS committed although a drained token reported failure, refuting the claimed
equivalence. -/
theorem C1_counterexample : ¬ c1ClaimHolds 1 [stepBenignFail, stepBenignOk] := by
  unfold c1ClaimHolds
  decide

/-- Claim C1 amended: the commit decision equals the success value assigned
by the LAST drained token (guards staying benign): with QoS 1 the last token
result alone decides, every earlier failure being overwritten, and with any
other QoS, or with no token drained, the pack is committed. -/
theorem C1_amended_commit (qos : Nat) (steps : List TokenStep)
    (h : ∀ e ∈ steps, benignStep e = true) :
    drainTokens qos steps true = ((lastTok steps).map (tokenSuccess qos)).getD true :=
  drainTokens_benign qos steps true h

/-- Witness for the amended C1 at the concrete fail-then-succeed queue. -/
theorem C1_amended_commit_witness :
    (∀ e ∈ [stepBenignFail, stepBenignOk], benignStep e = true) ∧
    drainTokens 1 [stepBenignFail, stepBenignOk] true =
      ((lastTok [stepBenignFail, stepBenignOk]).map (tokenSuccess 1)).getD true :=
  ⟨by decide, C1_amended_commit 1 [stepBenignFail, stepBenignOk] (by decide)⟩

/-- Entry sizes add over concatenation. -/
theorem sumW_append (a b : List Nat) : sumW (a ++ b) = sumW a + sumW b := by
  induction a with
  | nil => simp [sumW]
  | cons x t ih => simp [sumW, ih]; omega

/-- Invariants of the pack-assembly fold: already flushed packs obey the
amended bound, the accumulator content never exceeds the counter by more
than its own first entry, and after any append the counter sits strictly
below the threshold while the accumulator is nonempty. -/
theorem packFold_inv (maxSize : Nat) (hmax : 1 ≤ maxSize) (ws : List Nat) :
    ∀ st : PackAsmState,
      sumW st.pend ≤ st.size + headW st.pend →
      (st.pend ≠ [] → st.size + 1 ≤ maxSize) →
      (∀ pr ∈ st.flushed, sumW pr.1 + 1 ≤ maxSize + headW pr.1) →
      ((∀ pr ∈ (ws.foldl (packStep maxSize) st).flushed,
          sumW pr.1 + 1 ≤ maxSize + headW pr.1) ∧
       sumW (ws.foldl (packStep maxSize) st).pend ≤
         (ws.foldl (packStep maxSize) st).size +
           headW (ws.foldl (packStep maxSize) st).pend ∧
       ((ws.foldl (packStep maxSize) st).pend ≠ [] →
         (ws.foldl (packStep maxSize) st).size + 1 ≤ maxSize)) := by
  induction ws with
  | nil => intro st hA hB hF; exact ⟨hF, hA, hB⟩
  | cons w t ih =>
      intro st hA hB hF
      rw [List.foldl_cons]
      by_cases hc : maxSize ≤ st.size + w
      · have hstep : packStep maxSize st w =
            { size := 0, pend := [w], flushed := st.flushed ++ [(st.pend, some w)] } := by
          simp [packStep, hc]
        rw [hstep]
        apply ih
        · simp [sumW, headW]
        · intro _
          show 0 + 1 ≤ maxSize
          omega
        · intro pr hpr
          rcases List.mem_append.mp hpr with hin | hnew
          · exact hF pr hin
          · have hpr2 : pr = (st.pend, some w) := by simpa using hnew
            subst hpr2
            cases hp : st.pend with
            | nil => simp [sumW, headW]; omega
            | cons a b =>
                have hB2 := hB (by simp [hp])
                rw [hp] at hA
                simp only [headW] at hA ⊢
                omega
      · have hstep : packStep maxSize st w =
            { size := st.size + w, pend := st.pend ++ [w], flushed := st.flushed } := by
          simp [packStep, hc]
        rw [hstep]
        apply ih
        · rw [sumW_append]
          cases hp : st.pend with
          | nil => simp [sumW, headW]
          | cons a b =>
              rw [hp] at hA
              simp only [headW, List.cons_append, sumW] at hA ⊢
              omega
        · intro _
          show st.size + w + 1 ≤ maxSize
          omega
        · exact hF

/-- Claim C6 counterexample: with threshold 10 and entry sizes 100, 5, 6
the second publish holds the entries of sizes 100 and 5 (sum 105), while the
entry that triggered its flush has size 6, so the publish exceeds the
threshold by far more than the size of the triggering entry. The oversized
first entry was appended right after a flush zeroed the counter, so its size
is never counted again. -/
theorem C6_counterexample : ¬ packClaimBound 10 0 [100, 5, 6] := by
  unfold packClaimBound
  decide

/-- Claim C6 amended: the flush-on-threshold behaviour is as claimed, but
the entry that triggers a flush is appended after it, to the NEXT publish;
the bound that holds is that every publish stays strictly under the
threshold plus the size of its own first entry (the one whose size the
zeroed counter dropped). -/
theorem C6_amended_bound (maxSize s0 : Nat) (ws : List Nat) (hmax : 1 ≤ maxSize) :
    packAmendedBound maxSize s0 ws := by
  intro pr hpr
  simp only [assemblePack] at hpr
  obtain ⟨hflu, hA, hB⟩ :=
    packFold_inv maxSize hmax ws { size := s0, pend := [], flushed := [] }
      (by simp [sumW, headW]) (by intro h; simp at h) (by intro pr h; simp at h)
  rcases List.mem_append.mp hpr with hin | hfin
  · exact hflu pr hin
  · have hpr2 : pr = ((ws.foldl (packStep maxSize)
        { size := s0, pend := [], flushed := [] }).pend, none) := by
      simpa using hfin
    subst hpr2
    cases hp : (ws.foldl (packStep maxSize) { size := s0, pend := [], flushed := [] }).pend with
    | nil => simp [sumW, headW]; omega
    | cons a b =>
        have hB2 := hB (by simp [hp])
        rw [hp] at hA
        simp only [headW] at hA ⊢
        omega

/-- Witness for the amended C6 bound at the counterexample input. -/
theorem C6_amended_bound_witness :
    1 ≤ 10 ∧ packAmendedBound 10 0 [100, 5, 6] :=
  ⟨by decide, C6_amended_bound 10 0 [100, 5, 6] (by decide)⟩

/-- The source loop over well-formed telemetry entries computes exactly the
partition-then-merge described by the claim, for any starting accumulators. -/
theorem normLoop_spec (now : Int) (items : List JVal) :
    ∀ (bare : List (String × JVal)) (withTs : List JVal),
      (∀ it ∈ items, wfEntry it = true) →
      normLoop now items bare withTs =
        finishNorm now
          ((items.filter (fun it => !(entryHasTs it))).foldl
            (fun acc it => dictMerge acc (entryFields it)) bare)
          (withTs ++ (items.filter entryHasTs).map specTsEntry) := by
  induction items with
  | nil => intro bare withTs _; simp [normLoop]
  | cons item rest ih =>
      intro bare withTs h
      have hit : wfEntry item = true := h item (List.mem_cons_self item rest)
      have hrest : ∀ it ∈ rest, wfEntry it = true :=
        fun it hx => h it (List.mem_cons_of_mem item hx)
      cases item with
      | obj kvs =>
          cases hts : alookup kvs "ts" with
          | none =>
              have hhase : entryHasTs (JVal.obj kvs) = false := by
                simp [entryHasTs, hts]
              have lhs : normLoop now (JVal.obj kvs :: rest) bare withTs =
                  normLoop now rest (dictMerge bare kvs) withTs := by
                simp only [normLoop, hts]
              rw [lhs, ih (dictMerge bare kvs) withTs hrest]
              simp [List.filter_cons, hhase, entryFields]
          | some tv =>
              cases tv with
              | i t =>
                  cases hvals : alookup kvs "values" with
                  | none => simp [wfEntry, hts, hvals] at hit
                  | some vals =>
                      cases vals with
                      | obj vm =>
                          have hhase : entryHasTs (JVal.obj kvs) = true := by
                            simp [entryHasTs, hts]
                          have hspec : specTsEntry (JVal.obj kvs) =
                              JVal.obj [("ts", JVal.i t), ("values", JVal.obj vm)] := by
                            simp [specTsEntry, entryFields, hts, hvals]
                          have lhs : normLoop now (JVal.obj kvs :: rest) bare withTs =
                              normLoop now rest bare
                                (withTs ++ [JVal.obj [("ts", JVal.i t),
                                  ("values", JVal.obj vm)]]) := by
                            simp only [normLoop, hts, hvals]
                          rw [lhs, ih bare
                            (withTs ++ [JVal.obj [("ts", JVal.i t), ("values", JVal.obj vm)]])
                            hrest]
                          simp [List.filter_cons, hhase, hspec]
                      | null => simp [wfEntry, hts, hvals] at hit
                      | b v => simp [wfEntry, hts, hvals] at hit
                      | i n => simp [wfEntry, hts, hvals] at hit
                      | s v => simp [wfEntry, hts, hvals] at hit
                      | arr l => simp [wfEntry, hts, hvals] at hit
              | null => simp [wfEntry, hts] at hit
              | b v => simp [wfEntry, hts] at hit
              | s v => simp [wfEntry, hts] at hit
              | arr l => simp [wfEntry, hts] at hit
              | obj l => simp [wfEntry, hts] at hit
      | null => simp [wfEntry] at hit
      | b v => simp [wfEntry] at hit
      | i n => simp [wfEntry] at hit
      | s v => simp [wfEntry] at hit
      | arr l => simp [wfEntry] at hit

/-- Claim C7: on a telemetry list of well-formed entries the ingestion
normalization stores the list of explicit-ts records when at least one entry
carries a ts, and otherwise one object with the ingestion timestamp and the
left-to-right merge of the bare maps, the empty merge giving empty values. -/
theorem C7_normalization (now : Int) (items : List JVal)
    (h : ∀ it ∈ items, wfEntry it = true) :
    normalizeTelemetry now (JVal.arr items) =
      Except.ok (telemetrySpecNormalize now items) := by
  have hspec := normLoop_spec now items [] [] h
  simp only [normalizeTelemetry]
  rw [hspec]
  simp only [List.nil_append]
  cases hm : (items.filter entryHasTs).map specTsEntry with
  | nil => simp [finishNorm, telemetrySpecNormalize, hm]
  | cons a l => simp [finishNorm, telemetrySpecNormalize, hm]

/-- Witness for C7 at one bare entry plus one explicit-ts entry. -/
theorem C7_normalization_witness :
    (∀ it ∈ items7, wfEntry it = true) ∧
    normalizeTelemetry 99 (JVal.arr items7) =
      Except.ok (telemetrySpecNormalize 99 items7) :=
  ⟨by decide, C7_normalization 99 items7 (by decide)⟩
